import Mathlib

/-!
Verification development for the ytb-api video-processing backend.

The Python source is shallowly embedded: each service or route handler
becomes a pure Lean function over an explicit database state (a list of
`Video` rows).  External effects (object storage, the transcoding
service, wall-clock time) are passed in as explicit parameters, mirroring
exactly the branching of the source.
-/

namespace YtbApi

/-- Mirrors `VideoProcessingStatus` in `src/models/videos.py`. -/
inductive VideoProcessingStatus
  | PENDING
  | PROCESSING
  | COMPLETED
  | FAILED
deriving Repr, DecidableEq

/-- The `str` value of each enum member, as in the Python `str, Enum`. -/
def VideoProcessingStatus.value : VideoProcessingStatus → String
  | .PENDING => "pending"
  | .PROCESSING => "processing"
  | .COMPLETED => "completed"
  | .FAILED => "failed"

/-- Mirrors the `Video` SQLModel row in `src/models/videos.py`.
`available_qualities` (a JSON dict) is modelled as an association list;
timestamps are abstract `Nat` instants. -/
structure Video where
  id : Nat
  title : String
  description : Option String := none
  thumbnail_url : Option String := none
  raw_video_url : Option String := none
  raw_video_key : Option String := none
  video_url : Option String := none
  video_key : Option String := none
  processed_video_url : Option String := none
  processing_status : String := VideoProcessingStatus.PENDING.value
  processing_error : Option String := none
  available_qualities : Option (List (String × String)) := none
  duration : Option Int := none
  views : Nat := 0
  likes : Nat := 0
  dislikes : Nat := 0
  user_id : Nat
  is_published : Bool := false
  created_at : Nat
  updated_at : Option Nat := none
deriving Repr, DecidableEq

/-- The database table of videos. -/
abbrev Db := List Video

/-- Mirrors `VideoCreateReq` in `src/schemas/videos.py`. -/
structure VideoCreateReq where
  title : String
  description : Option String := none
  thumbnail_url : Option String := none
  duration : Option Int := none
deriving Repr, DecidableEq

/-- Mirrors `VideoUpdateReq` in `src/schemas/videos.py`. -/
structure VideoUpdateReq where
  title : Option String := none
  description : Option String := none
  thumbnail_url : Option String := none
  duration : Option Int := none
  is_published : Option Bool := none
deriving Repr, DecidableEq

/-- Mirrors `VideoProcessingWebhookReq` in `src/schemas/videos.py`. -/
structure VideoProcessingWebhookReq where
  video_id : Nat
  status : String
  processed_video_url : Option String := none
  available_qualities : Option (List (String × String)) := none
  error : Option String := none
  duration : Option Int := none
deriving Repr, DecidableEq

/-- `if x is not None: field = x` — keep the old value unless a new one is given. -/
def updOpt {α : Type} (new old : Option α) : Option α :=
  match new with
  | some x => some x
  | none => old

/-- Committing a mutated row: replace the row with the same primary key. -/
def dbPut (v : Video) (db : Db) : Db :=
  db.map (fun w => if w.id == v.id then v else w)

namespace video_service

/-- Mirrors `create_video` in `src/services/video_service.py` (lines 14-33):
builds a fresh row from the request fields with all defaults and appends it.
The fresh primary key and the clock are explicit parameters. -/
def create_video (video_data : VideoCreateReq) (user_id : Nat) (newId : Nat)
    (now : Nat) (db : Db) : Video × Db :=
  let video : Video :=
    { id := newId
      title := video_data.title
      description := video_data.description
      thumbnail_url := video_data.thumbnail_url
      duration := video_data.duration
      user_id := user_id
      created_at := now }
  (video, db ++ [video])

/-- Mirrors `get_video` (lines 36-43): first row with the given id. -/
def get_video (video_id : Nat) (db : Db) : Option Video :=
  db.find? (fun v => v.id == video_id)

/-- Mirrors `get_video_by_user` (lines 46-56): first row with the given id
owned by the given user (ownership check folded into the query). -/
def get_video_by_user (video_id user_id : Nat) (db : Db) : Option Video :=
  db.find? (fun v => v.id == video_id && v.user_id == user_id)

/-- Mirrors `update_video` (lines 102-133): ownership-checked load, field-wise
update of the provided fields, `updated_at = now`, commit. -/
def update_video (video_id user_id : Nat) (video_data : VideoUpdateReq)
    (now : Nat) (db : Db) : Option Video × Db :=
  match get_video_by_user video_id user_id db with
  | none => (none, db)
  | some video =>
    let video :=
      { video with
        title := video_data.title.getD video.title
        description := updOpt video_data.description video.description
        thumbnail_url := updOpt video_data.thumbnail_url video.thumbnail_url
        duration := updOpt video_data.duration video.duration
        is_published := video_data.is_published.getD video.is_published
        updated_at := some now }
    (some video, dbPut video db)

/-- Mirrors `update_video_url` (lines 136-157): ownership-checked load, set
`video_url`/`video_key`, `updated_at = now`, commit. -/
def update_video_url (video_id user_id : Nat) (video_url video_key : String)
    (now : Nat) (db : Db) : Option Video × Db :=
  match get_video_by_user video_id user_id db with
  | none => (none, db)
  | some video =>
    let video :=
      { video with
        video_url := some video_url
        video_key := some video_key
        updated_at := some now }
    (some video, dbPut video db)

/-- Mirrors `delete_video` (lines 160-174): ownership-checked load; if found,
remove the row and report success, else report failure. -/
def delete_video (video_id user_id : Nat) (db : Db) : Bool × Db :=
  match get_video_by_user video_id user_id db with
  | none => (false, db)
  | some video => (true, db.filter (fun w => !(w.id == video.id)))

/-- Mirrors `increment_views` (lines 177-191): load by id, `views += 1`,
commit; `updated_at` is not touched. -/
def increment_views (video_id : Nat) (db : Db) : Option Video × Db :=
  match get_video video_id db with
  | none => (none, db)
  | some video =>
    let video := { video with views := video.views + 1 }
    (some video, dbPut video db)

/-- Modelled from the spec: `video_service.update_raw_video` is invoked by
`mark_video_uploaded` (`src/api/studio/videos_api.py` line 174) but its
definition is absent from src/.  Spec §4.4 Transition 1 steps 2-3: perform an
ownership-checked load (absent or not owned → NotFound, i.e. `none`); persist
`raw_video_url` and `raw_video_key` ("object key and raw URL are simply
overwritten"); the status remains at its value (PENDING at this point);
`updated_at` is set as on every mutating operation (spec §3). -/
def update_raw_video (video_id user_id : Nat) (raw_video_url raw_video_key : String)
    (now : Nat) (db : Db) : Option Video × Db :=
  match get_video_by_user video_id user_id db with
  | none => (none, db)
  | some video =>
    let video :=
      { video with
        raw_video_url := some raw_video_url
        raw_video_key := some raw_video_key
        updated_at := some now }
    (some video, dbPut video db)

/-- Outcome of `update_processing_status`: row absent, protocol-violating
status value, or the updated row. -/
inductive ProcUpdateResult
  | notFound
  | invalidStatus
  | ok (v : Video)
deriving Repr, DecidableEq

/-- Modelled from the spec: `video_service.update_processing_status` is invoked
by `video_processing_webhook` (`src/api/studio/videos_api.py` line 235) but its
definition is absent from src/.  Spec §4.4 Transition 2: load by id with no
ownership check; validate `reportedStatus ∈ {completed, failed}`, any other
value is a protocol violation and is rejected; if `completed`, set
`processed_video_url`, `available_qualities`, `duration` (when provided),
status→COMPLETED and clear any prior `processing_error`; if `failed`, set
`processing_error` from the payload and status→FAILED; persist and return the
updated record; `updated_at` is set as on every mutating operation (spec §3). -/
def update_processing_status (video_id : Nat) (status : String)
    (processed_video_url : Option String)
    (available_qualities : Option (List (String × String)))
    (error : Option String) (duration : Option Int)
    (now : Nat) (db : Db) : ProcUpdateResult × Db :=
  match get_video video_id db with
  | none => (.notFound, db)
  | some video =>
    if status == VideoProcessingStatus.COMPLETED.value then
      let video :=
        { video with
          processed_video_url := updOpt processed_video_url video.processed_video_url
          available_qualities := updOpt available_qualities video.available_qualities
          duration := updOpt duration video.duration
          processing_status := VideoProcessingStatus.COMPLETED.value
          processing_error := none
          updated_at := some now }
      (.ok video, dbPut video db)
    else if status == VideoProcessingStatus.FAILED.value then
      let video :=
        { video with
          processing_error := error
          processing_status := VideoProcessingStatus.FAILED.value
          updated_at := some now }
      (.ok video, dbPut video db)
    else
      (.invalidStatus, db)

end video_service

namespace video_processing_service

/-- Outcome of the single outbound POST made by the dispatch client: a
synchronous HTTP response with some status code, a request timeout, a
connection-level request error, or any other unexpected exception. -/
inductive HttpOutcome
  | response (status_code : Nat)
  | timeoutExc
  | requestError
  | otherExc
deriving Repr, DecidableEq

/-- Mirrors `trigger_video_processing` in
`src/services/video_processing_service.py` (lines 10-71): `False` when
`GO_API_BASE_URL` is unset; otherwise `True` exactly when the response status
code is 200, 201 or 202, and `False` on any other status code, timeout,
request error or unexpected exception. -/
def trigger_video_processing (goApiBaseUrlSet : Bool) (outcome : HttpOutcome) : Bool :=
  if !goApiBaseUrlSet then
    false
  else
    match outcome with
    | .response c => c == 200 || c == 201 || c == 202
    | .timeoutExc => false
    | .requestError => false
    | .otherExc => false

end video_processing_service

namespace s3_service

/-- Mirrors `generate_presigned_download_url` in `src/services/s3_service.py`
(lines 66-103): `none` when S3 is unconfigured or the client raises, otherwise
the presigned URL produced by the storage client (an oracle parameter here). -/
def generate_presigned_download_url (s3Configured clientErr : Bool)
    (presignedUrl : String) : Option String :=
  if !s3Configured then none
  else if clientErr then none
  else some presignedUrl

/-- Mirrors `delete_video` in `src/services/s3_service.py` (lines 106-134):
`False` when S3 is unconfigured or the client raises, `True` on success. -/
def delete_video (s3Configured clientErr : Bool) (videoKey : String) : Bool :=
  if !s3Configured then false
  else if clientErr then false
  else true

end s3_service

/-- The error side of a FastAPI handler: the `HTTPException`s raised in
`src/api/studio/videos_api.py`, tagged by status class and detail string. -/
inductive ApiError
  | badRequest (detail : String)
  | notFound (detail : String)
  | serviceUnavailable (detail : String)
  | serverError (detail : String)
deriving Repr, DecidableEq

/-- A 4xx client-error-class response. -/
def ApiError.isClientError : ApiError → Bool
  | .badRequest _ => true
  | .notFound _ => true
  | .serviceUnavailable _ => false
  | .serverError _ => false

namespace videos_api

/-- Mirrors the `update_video` route handler (`videos_api.py` lines 127-143):
delegate to the service; `None` becomes the 404 with the fixed detail. -/
def update_video (video_id : Nat) (video_data : VideoUpdateReq) (user_id : Nat)
    (now : Nat) (db : Db) : Except ApiError Video × Db :=
  match video_service.update_video video_id user_id video_data now db with
  | (none, db') =>
    (.error (.notFound "Video not found or you don't have permission to update it"), db')
  | (some video, db') => (.ok video, db')

/-- Result of the upload-complete route: the response-or-error, the database
after the call, and whether the dispatch-failure warning was logged. -/
structure MarkUploadedResult where
  response : Except ApiError Video
  db : Db
  warned : Bool
deriving Repr

/-- Mirrors `mark_video_uploaded` (`videos_api.py` lines 146-210):
1. resolve the object key to a presigned download URL (503 when `none`, and
   nothing is persisted);
2. `update_raw_video` with ownership check (404 when `none`);
3. trigger processing in go-api; when accepted, set status to PROCESSING and
   commit; when rejected, log a warning and keep the record as saved;
4. return the updated record either way.
`rawVideoUrl` is the gateway's answer from step 1; `dispatched` the dispatch
client's answer from step 3. -/
def mark_video_uploaded (video_id : Nat) (video_key : String) (user_id : Nat)
    (rawVideoUrl : Option String) (dispatched : Bool) (now : Nat) (db : Db) :
    MarkUploadedResult :=
  match rawVideoUrl with
  | none =>
    { response := .error (.serviceUnavailable "Failed to generate video URL")
      db := db, warned := false }
  | some raw_video_url =>
    match video_service.update_raw_video video_id user_id raw_video_url video_key now db with
    | (none, db') =>
      { response := .error (.notFound "Video not found or you don't have permission to update it")
        db := db', warned := false }
    | (some video, db') =>
      if dispatched then
        let video := { video with processing_status := VideoProcessingStatus.PROCESSING.value }
        { response := .ok video, db := dbPut video db', warned := false }
      else
        { response := .ok video, db := db', warned := true }

/-- Mirrors `video_processing_webhook` (`videos_api.py` lines 213-256):
400 when the payload `video_id` differs from the path `video_id`; otherwise
apply `update_processing_status` — absent row is the 404, a protocol-violating
status value is rejected as a client error, success returns the record. -/
def video_processing_webhook (video_id : Nat) (webhook_data : VideoProcessingWebhookReq)
    (now : Nat) (db : Db) : Except ApiError Video × Db :=
  if webhook_data.video_id != video_id then
    (.error (.badRequest "Video ID mismatch between URL and payload"), db)
  else
    match video_service.update_processing_status video_id webhook_data.status
        webhook_data.processed_video_url webhook_data.available_qualities
        webhook_data.error webhook_data.duration now db with
    | (.notFound, db') =>
      (.error (.notFound ("Video " ++ toString video_id ++ " not found")), db')
    | (.invalidStatus, db') =>
      (.error (.badRequest "Invalid processing status"), db')
    | (.ok video, db') => (.ok video, db')

/-- Result of the delete route: the response-or-error, the database after the
call, and the object keys submitted to the storage delete operation. -/
structure DeleteResult where
  response : Except ApiError Unit
  db : Db
  s3KeysDeleted : List String
deriving Repr

/-- Mirrors the `delete_video` route handler (`videos_api.py` lines 259-287):
ownership-checked load (404 when absent or not owned); submit `video_key` to
the storage delete only when it is non-null; then delete the row. -/
def delete_video (video_id user_id : Nat) (db : Db) : DeleteResult :=
  match video_service.get_video_by_user video_id user_id db with
  | none =>
    { response := .error (.notFound "Video not found or you don't have permission to delete it")
      db := db, s3KeysDeleted := [] }
  | some video =>
    let keys := match video.video_key with
      | some k => [k]
      | none => []
    match video_service.delete_video video_id user_id db with
    | (false, db') =>
      { response := .error (.serverError "Failed to delete video")
        db := db', s3KeysDeleted := keys }
    | (true, db') =>
      { response := .ok (), db := db', s3KeysDeleted := keys }

end videos_api

/-! Statement-side abbreviations: the field updates of spec §4.4 Transition 2
step 3 and Transition 1 step 3, spelled out once so theorems can name them. -/

/-- The record update a `completed` webhook performs (spec §4.4 Transition 2):
set `processed_video_url`, `available_qualities`, `duration` when provided,
status → COMPLETED, clear any prior `processing_error`, stamp `updated_at`. -/
def completedUpdate (w : VideoProcessingWebhookReq) (now : Nat) (v : Video) : Video :=
  { v with
    processed_video_url := updOpt w.processed_video_url v.processed_video_url
    available_qualities := updOpt w.available_qualities v.available_qualities
    duration := updOpt w.duration v.duration
    processing_status := VideoProcessingStatus.COMPLETED.value
    processing_error := none
    updated_at := some now }

/-- The record update a `failed` webhook performs (spec §4.4 Transition 2):
set `processing_error` from the payload, status → FAILED, stamp `updated_at`. -/
def failedUpdate (w : VideoProcessingWebhookReq) (now : Nat) (v : Video) : Video :=
  { v with
    processing_error := w.error
    processing_status := VideoProcessingStatus.FAILED.value
    updated_at := some now }

/-- The record update `update_raw_video` performs (spec §4.4 Transition 1
step 3): persist the raw URL and object key, stamp `updated_at`. -/
def rawUpdate (url key : String) (now : Nat) (v : Video) : Video :=
  { v with
    raw_video_url := some url
    raw_video_key := some key
    updated_at := some now }

/-! Concrete rows and payloads used by witnesses and counterexamples. -/

/-- A freshly created video: owner 7, default PENDING status. -/
def vPending : Video := { id := 1, title := "t", user_id := 7, created_at := 0 }

/-- A stored row carrying both a processed-asset key and a raw-asset key. -/
def vKeys : Video :=
  { vPending with video_key := some "proc.m3u8", raw_video_key := some "raw.mp4" }

/-- Result row of a metadata update with an empty patch at time 5. -/
def vT5 : Video := { vPending with updated_at := some 5 }

/-- Result row of `update_video_url` at time 5. -/
def vUrlT5 : Video :=
  { vPending with video_url := some "vu", video_key := some "vk", updated_at := some 5 }

/-- The same row after dispatch was accepted. -/
def vProcessing : Video :=
  { vPending with processing_status := VideoProcessingStatus.PROCESSING.value }

/-- The same row in the COMPLETED terminal state. -/
def vCompleted : Video :=
  { vPending with processing_status := VideoProcessingStatus.COMPLETED.value }

/-- A `completed` webhook payload for video 1. -/
def wCompleted : VideoProcessingWebhookReq :=
  { video_id := 1
    status := "completed"
    processed_video_url := some "https://cdn/x.m3u8"
    duration := some 120 }

/-- A `failed` webhook payload for video 1. -/
def wFailed : VideoProcessingWebhookReq :=
  { video_id := 1, status := "failed", error := some "codec error" }

/-- A webhook payload with a protocol-violating status value. -/
def wBadStatus : VideoProcessingWebhookReq := { video_id := 1, status := "done" }

/-- Database after a first `completed` webhook at time 1. -/
def c3Db1 : Db := (videos_api.video_processing_webhook 1 wCompleted 1 [vProcessing]).2

/-- Database after a second, identical `completed` webhook at time 2. -/
def c3Db2 : Db := (videos_api.video_processing_webhook 1 wCompleted 2 c3Db1).2

/-- The row produced by the first `completed` webhook of `c3Db1`. -/
def vC3one : Video := completedUpdate wCompleted 1 vProcessing

/-! Helper lemmas. -/

/-- Overwriting twice with the same optional value is the same as once. -/
theorem updOpt_idem {α : Type} (a b : Option α) :
    updOpt a (updOpt a b) = updOpt a b := by
  cases a <;> rfl

/-- If `find?` hits `v` and the replacement `v'` has `v`'s primary key and
itself satisfies the predicate, then after committing `v'` the same query
returns `v'`. -/
theorem find?_dbPut {p : Video → Bool} {db : Db} {v : Video} (v' : Video)
    (hv : db.find? p = some v) (hid : v'.id = v.id) (hp : p v' = true) :
    (dbPut v' db).find? p = some v' := by
  induction db with
  | nil => simp at hv
  | cons a tl ih =>
    unfold dbPut
    rw [List.map_cons]
    by_cases hai : (a.id == v'.id) = true
    · rw [if_pos hai]
      exact List.find?_cons_of_pos _ hp
    · rw [if_neg hai]
      have hpa : ¬ p a = true := by
        intro hpa
        rw [List.find?_cons_of_pos _ hpa] at hv
        obtain rfl : a = v := by injection hv
        exact hai (by simp [hid])
      rw [List.find?_cons_of_neg _ hpa]
      have hv' : tl.find? p = some v := by
        rwa [List.find?_cons_of_neg _ hpa] at hv
      simpa [dbPut] using ih hv'

/-- `get_video` after committing a row with the found row's key. -/
theorem get_video_dbPut {vid : Nat} {db : Db} {v : Video} (v' : Video)
    (hv : video_service.get_video vid db = some v) (hid : v'.id = v.id) :
    video_service.get_video vid (dbPut v' db) = some v' := by
  have hvf : db.find? (fun w => w.id == vid) = some v := hv
  have hvid := List.find?_some hvf
  have hp : (v'.id == vid) = true := by rw [hid]; exact hvid
  exact find?_dbPut v' hvf hid hp

/-- `get_video_by_user` after committing a row with the found row's key and owner. -/
theorem get_video_by_user_dbPut {vid uid : Nat} {db : Db} {v : Video} (v' : Video)
    (hv : video_service.get_video_by_user vid uid db = some v)
    (hid : v'.id = v.id) (huid : v'.user_id = v.user_id) :
    video_service.get_video_by_user vid uid (dbPut v' db) = some v' := by
  have hvf : db.find? (fun w => w.id == vid && w.user_id == uid) = some v := hv
  have hpv := List.find?_some hvf
  have hp : (v'.id == vid && v'.user_id == uid) = true := by
    rw [hid, huid]; exact hpv
  exact find?_dbPut v' hvf hid hp

/-- What the webhook handler does on a matching `completed` payload for a
stored video: exactly `completedUpdate`, committed and returned. -/
theorem webhook_completed_eq {vid : Nat} {w : VideoProcessingWebhookReq} (now : Nat)
    {db : Db} {v : Video}
    (hid : w.video_id = vid) (hc : w.status = VideoProcessingStatus.COMPLETED.value)
    (hv : video_service.get_video vid db = some v) :
    videos_api.video_processing_webhook vid w now db =
      (.ok (completedUpdate w now v), dbPut (completedUpdate w now v) db) := by
  subst hid
  simp [videos_api.video_processing_webhook, video_service.update_processing_status,
    hv, hc, completedUpdate, VideoProcessingStatus.value]

/-- What the webhook handler does on a matching `failed` payload for a stored
video: exactly `failedUpdate`, committed and returned. -/
theorem webhook_failed_eq {vid : Nat} {w : VideoProcessingWebhookReq} (now : Nat)
    {db : Db} {v : Video}
    (hid : w.video_id = vid) (hf : w.status = VideoProcessingStatus.FAILED.value)
    (hv : video_service.get_video vid db = some v) :
    videos_api.video_processing_webhook vid w now db =
      (.ok (failedUpdate w now v), dbPut (failedUpdate w now v) db) := by
  subst hid
  simp [videos_api.video_processing_webhook, video_service.update_processing_status,
    hv, hf, failedUpdate, VideoProcessingStatus.value]

/-- What the upload-complete handler does when the gateway resolved a URL, the
video is owned by the caller, and dispatch was rejected. -/
theorem mark_uploaded_rejected_eq {vid uid : Nat} (key url : String) (now : Nat)
    {db : Db} {v : Video}
    (hv : video_service.get_video_by_user vid uid db = some v) :
    videos_api.mark_video_uploaded vid key uid (some url) false now db =
      { response := .ok (rawUpdate url key now v)
        db := dbPut (rawUpdate url key now v) db
        warned := true } := by
  simp [videos_api.mark_video_uploaded, video_service.update_raw_video, hv, rawUpdate]

/-- What the upload-complete handler does when the gateway resolved a URL, the
video is owned by the caller, and dispatch was accepted. -/
theorem mark_uploaded_accepted_eq {vid uid : Nat} (key url : String) (now : Nat)
    {db : Db} {v : Video}
    (hv : video_service.get_video_by_user vid uid db = some v) :
    videos_api.mark_video_uploaded vid key uid (some url) true now db =
      { response := .ok { rawUpdate url key now v with
            processing_status := VideoProcessingStatus.PROCESSING.value }
        db := dbPut { rawUpdate url key now v with
            processing_status := VideoProcessingStatus.PROCESSING.value }
          (dbPut (rawUpdate url key now v) db)
        warned := false } := by
  simp [videos_api.mark_video_uploaded, video_service.update_raw_video, hv, rawUpdate]

/-- A successful `update_processing_status` always leaves the row in one of
the two terminal statuses. -/
theorem update_processing_status_ok {vid : Nat} {st : String} {pu : Option String}
    {aq : Option (List (String × String))} {er : Option String} {du : Option Int}
    {now : Nat} {db db2 : Db} {u : Video}
    (h : video_service.update_processing_status vid st pu aq er du now db = (.ok u, db2)) :
    u.processing_status = VideoProcessingStatus.COMPLETED.value ∨
    u.processing_status = VideoProcessingStatus.FAILED.value := by
  unfold video_service.update_processing_status at h
  rcases hg : video_service.get_video vid db with _ | w
  · rw [hg] at h
    simp at h
  · simp only [hg] at h
    by_cases hcs : (st == VideoProcessingStatus.COMPLETED.value) = true
    · rw [if_pos hcs] at h
      simp only [Prod.mk.injEq, video_service.ProcUpdateResult.ok.injEq] at h
      obtain ⟨rfl, h2⟩ := h
      left
      rfl
    · rw [if_neg hcs] at h
      by_cases hfs : (st == VideoProcessingStatus.FAILED.value) = true
      · rw [if_pos hfs] at h
        simp only [Prod.mk.injEq, video_service.ProcUpdateResult.ok.injEq] at h
        obtain ⟨rfl, h2⟩ := h
        right
        rfl
      · rw [if_neg hfs] at h
        simp at h

/-! Claim theorems. -/

/-- C1 counterexample: a video already in COMPLETED, re-submitted through
`mark_video_uploaded` with an accepted dispatch, is moved back to PROCESSING
instead of the transition being rejected with the status unchanged. -/
theorem C1_counterexample :
    vCompleted.processing_status = VideoProcessingStatus.COMPLETED.value ∧
    ((videos_api.mark_video_uploaded 1 "k" 7 (some "u") true 5 [vCompleted]).response.toOption.map
        Video.processing_status = some VideoProcessingStatus.PROCESSING.value) ∧
    ((videos_api.mark_video_uploaded 1 "k" 7 (some "u") true 5 [vCompleted]).db.map
        Video.processing_status = [VideoProcessingStatus.PROCESSING.value]) :=
  ⟨rfl, rfl, rfl⟩

/-- C1 (amended): `processing_status` starts at PENDING on creation; the
webhook only ever writes the terminal statuses COMPLETED or FAILED (including
the corrective COMPLETED↔FAILED overwrite); but `mark_video_uploaded` sets
PROCESSING whenever dispatch is accepted, regardless of the prior status, so
backward transitions such as COMPLETED→PROCESSING are performed rather than
rejected. -/
theorem C1_theorem :
    (∀ (d : VideoCreateReq) (uid newId now : Nat) (db : Db),
        ((video_service.create_video d uid newId now db).1).processing_status =
          VideoProcessingStatus.PENDING.value) ∧
    (∀ (vid : Nat) (w : VideoProcessingWebhookReq) (now : Nat) (db db' : Db) (v : Video),
        videos_api.video_processing_webhook vid w now db = (.ok v, db') →
          v.processing_status = VideoProcessingStatus.COMPLETED.value ∨
          v.processing_status = VideoProcessingStatus.FAILED.value) ∧
    (∀ (vid uid : Nat) (key url : String) (now : Nat) (db : Db) (v : Video),
        video_service.get_video_by_user vid uid db = some v →
          ∃ v', (videos_api.mark_video_uploaded vid key uid (some url) true now db).response
              = .ok v' ∧
            v'.processing_status = VideoProcessingStatus.PROCESSING.value) := by
  refine ⟨fun d uid newId now db => rfl, ?_, ?_⟩
  · intro vid w now db db' v h
    unfold videos_api.video_processing_webhook at h
    split at h
    · simp at h
    · rcases hu : video_service.update_processing_status vid w.status w.processed_video_url
          w.available_qualities w.error w.duration now db with ⟨r, db2⟩
      rw [hu] at h
      cases r with
      | notFound => simp at h
      | invalidStatus => simp at h
      | ok u =>
        simp only [Prod.mk.injEq] at h
        obtain ⟨h1, h2⟩ := h
        injection h1 with h1
        subst h1
        exact update_processing_status_ok hu
  · intro vid uid key url now db v hv
    exact ⟨{ rawUpdate url key now v with
        processing_status := VideoProcessingStatus.PROCESSING.value },
      by rw [mark_uploaded_accepted_eq key url now hv], rfl⟩

/-- C1 witness: the amended claim at concrete inputs — a fresh video is
PENDING, a concrete successful webhook result is terminal, and a concrete
accepted dispatch yields PROCESSING. -/
theorem C1_witness :
    ((video_service.create_video { title := "t" } 7 1 0 []).1).processing_status =
      VideoProcessingStatus.PENDING.value ∧
    (vC3one.processing_status = VideoProcessingStatus.COMPLETED.value ∨
      vC3one.processing_status = VideoProcessingStatus.FAILED.value) ∧
    (∃ v', (videos_api.mark_video_uploaded 1 "k" 7 (some "u") true 5 [vPending]).response
        = .ok v' ∧
      v'.processing_status = VideoProcessingStatus.PROCESSING.value) :=
  ⟨C1_theorem.1 { title := "t" } 7 1 0 [],
   C1_theorem.2.1 1 wCompleted 1 [vProcessing] c3Db1 vC3one rfl,
   C1_theorem.2.2 1 7 "k" "u" 5 [vPending] vPending rfl⟩

/-- C2: for a stored video, a webhook with matching id and status `completed`
sets the processed URL, available qualities and duration (when provided), sets
status COMPLETED and clears any prior processing error; with status `failed`
it sets the processing error from the payload and status FAILED; in both cases
the updated record is committed and returned. -/
theorem C2_theorem (vid : Nat) (w : VideoProcessingWebhookReq) (now : Nat)
    (db : Db) (v : Video)
    (hid : w.video_id = vid) (hv : video_service.get_video vid db = some v) :
    (w.status = VideoProcessingStatus.COMPLETED.value →
      videos_api.video_processing_webhook vid w now db =
        (.ok (completedUpdate w now v), dbPut (completedUpdate w now v) db)) ∧
    (w.status = VideoProcessingStatus.FAILED.value →
      videos_api.video_processing_webhook vid w now db =
        (.ok (failedUpdate w now v), dbPut (failedUpdate w now v) db)) :=
  ⟨fun hc => webhook_completed_eq now hid hc hv, fun hf => webhook_failed_eq now hid hf hv⟩

/-- C2 witness: a completed payload and a failed payload applied to a stored
PROCESSING video at concrete inputs. -/
theorem C2_witness :
    videos_api.video_processing_webhook 1 wCompleted 3 [vProcessing] =
      (.ok (completedUpdate wCompleted 3 vProcessing),
        dbPut (completedUpdate wCompleted 3 vProcessing) [vProcessing]) ∧
    videos_api.video_processing_webhook 1 wFailed 4 [vProcessing] =
      (.ok (failedUpdate wFailed 4 vProcessing),
        dbPut (failedUpdate wFailed 4 vProcessing) [vProcessing]) :=
  ⟨(C2_theorem 1 wCompleted 3 [vProcessing] vProcessing rfl rfl).1 rfl,
   (C2_theorem 1 wFailed 4 [vProcessing] vProcessing rfl rfl).2 rfl⟩

/-- C3 counterexample: two webhook calls with the identical completed payload
do not leave the record byte-identical — the second call advances
`updated_at` (set to 1 by the first call, to 2 by the second). -/
theorem C3_counterexample :
    c3Db1 ≠ c3Db2 ∧
    c3Db1.map Video.updated_at = [some 1] ∧
    c3Db2.map Video.updated_at = [some 2] := by
  refine ⟨by decide, by decide, by decide⟩

/-- C3 (amended): a second webhook with the identical completed payload is an
accepted safe no-op up to the freshness timestamp — the record after the
second call equals the first call's result with only `updated_at` advanced to
the second call's time — and a webhook moving a video already in COMPLETED to
FAILED is accepted as a last-write-wins correction rather than rejected. -/
theorem C3_theorem (vid : Nat) (w : VideoProcessingWebhookReq) (now1 now2 : Nat)
    (db db1 : Db) (v v1 : Video)
    (hid : w.video_id = vid) (hc : w.status = VideoProcessingStatus.COMPLETED.value)
    (hv : video_service.get_video vid db = some v)
    (h1 : videos_api.video_processing_webhook vid w now1 db = (.ok v1, db1)) :
    (videos_api.video_processing_webhook vid w now2 db1 =
      (.ok { v1 with updated_at := some now2 },
        dbPut { v1 with updated_at := some now2 } db1)) ∧
    (∀ (wf : VideoProcessingWebhookReq) (nowf : Nat) (dbc : Db) (vc : Video),
      wf.video_id = vid → wf.status = VideoProcessingStatus.FAILED.value →
      video_service.get_video vid dbc = some vc →
      vc.processing_status = VideoProcessingStatus.COMPLETED.value →
      videos_api.video_processing_webhook vid wf nowf dbc =
        (.ok (failedUpdate wf nowf vc), dbPut (failedUpdate wf nowf vc) dbc)) := by
  constructor
  · have he := webhook_completed_eq now1 hid hc hv
    rw [he] at h1
    simp only [Prod.mk.injEq, Except.ok.injEq] at h1
    obtain ⟨hv1, hdb1⟩ := h1
    subst hv1
    subst hdb1
    have hget : video_service.get_video vid (dbPut (completedUpdate w now1 v) db) =
        some (completedUpdate w now1 v) :=
      get_video_dbPut (completedUpdate w now1 v) hv rfl
    have he2 := webhook_completed_eq now2 hid hc hget
    rw [he2]
    have hrec : completedUpdate w now2 (completedUpdate w now1 v) =
        { completedUpdate w now1 v with updated_at := some now2 } := by
      cases v
      simp [completedUpdate, updOpt_idem]
    rw [hrec]
  · intro wf nowf dbc vc hidf hf hvc _
    exact webhook_failed_eq nowf hidf hf hvc

/-- C3 witness: the amended claim at concrete inputs — the duplicate completed
webhook at times 1 then 2, and a COMPLETED→FAILED correction. -/
theorem C3_witness :
    (videos_api.video_processing_webhook 1 wCompleted 2 c3Db1 =
      (.ok { vC3one with updated_at := some 2 },
        dbPut { vC3one with updated_at := some 2 } c3Db1)) ∧
    videos_api.video_processing_webhook 1 wFailed 9 [vCompleted] =
      (.ok (failedUpdate wFailed 9 vCompleted),
        dbPut (failedUpdate wFailed 9 vCompleted) [vCompleted]) := by
  have h := C3_theorem 1 wCompleted 1 2 [vProcessing] c3Db1 vProcessing vC3one rfl rfl rfl rfl
  exact ⟨h.1, h.2 wFailed 9 [vCompleted] vCompleted rfl rfl rfl rfl⟩

/-- C4: when dispatch is rejected, upload-complete keeps the video at its
prior PENDING status, persists the raw URL and key, reports the failure as a
warning while still returning the updated record, and re-invoking the
transition is an idempotent retry that overwrites the raw URL and key with
equivalent values. -/
theorem C4_theorem (vid uid : Nat) (key url : String) (now1 now2 : Nat)
    (db : Db) (v : Video)
    (hv : video_service.get_video_by_user vid uid db = some v)
    (hp : v.processing_status = VideoProcessingStatus.PENDING.value) :
    (videos_api.mark_video_uploaded vid key uid (some url) false now1 db =
      { response := .ok (rawUpdate url key now1 v)
        db := dbPut (rawUpdate url key now1 v) db
        warned := true }) ∧
    (rawUpdate url key now1 v).processing_status = VideoProcessingStatus.PENDING.value ∧
    (rawUpdate url key now1 v).raw_video_url = some url ∧
    (rawUpdate url key now1 v).raw_video_key = some key ∧
    (videos_api.mark_video_uploaded vid key uid (some url) false now2
        (dbPut (rawUpdate url key now1 v) db) =
      { response := .ok { rawUpdate url key now1 v with updated_at := some now2 }
        db := dbPut { rawUpdate url key now1 v with updated_at := some now2 }
            (dbPut (rawUpdate url key now1 v) db)
        warned := true }) := by
  refine ⟨mark_uploaded_rejected_eq key url now1 hv, hp, rfl, rfl, ?_⟩
  have hget := get_video_by_user_dbPut (rawUpdate url key now1 v) hv rfl rfl
  have h2 := mark_uploaded_rejected_eq key url now2 hget
  rw [h2]
  have hrec : rawUpdate url key now2 (rawUpdate url key now1 v) =
      { rawUpdate url key now1 v with updated_at := some now2 } := by
    cases v
    simp [rawUpdate]
  rw [hrec]

/-- C4 witness: a stored PENDING video, rejected dispatch at times 5 and 6. -/
theorem C4_witness :
    (videos_api.mark_video_uploaded 1 "k" 7 (some "u") false 5 [vPending] =
      { response := .ok (rawUpdate "u" "k" 5 vPending)
        db := dbPut (rawUpdate "u" "k" 5 vPending) [vPending]
        warned := true }) ∧
    (rawUpdate "u" "k" 5 vPending).processing_status = VideoProcessingStatus.PENDING.value ∧
    (rawUpdate "u" "k" 5 vPending).raw_video_url = some "u" ∧
    (rawUpdate "u" "k" 5 vPending).raw_video_key = some "k" ∧
    (videos_api.mark_video_uploaded 1 "k" 7 (some "u") false 6
        (dbPut (rawUpdate "u" "k" 5 vPending) [vPending]) =
      { response := .ok { rawUpdate "u" "k" 5 vPending with updated_at := some 6 }
        db := dbPut { rawUpdate "u" "k" 5 vPending with updated_at := some 6 }
            (dbPut (rawUpdate "u" "k" 5 vPending) [vPending])
        warned := true }) :=
  C4_theorem 1 7 "k" "u" 5 6 [vPending] vPending rfl rfl

/-- C5 counterexample: the spec says any 2xx-class synchronous response is
`accepted`, but the dispatch client treats a 204 response (2xx-class) as
rejected: it only accepts 200, 201 and 202. -/
theorem C5_counterexample :
    (200 ≤ 204 ∧ 204 < 300) ∧
    video_processing_service.trigger_video_processing true (.response 204) = false := by
  decide

/-- C5 (amended): with the endpoint configured, the dispatch operation returns
accepted exactly when the external service answers 200, 201 or 202; every
other status code, request timeout, connection failure and unexpected
exception yield rejected, all treated identically. -/
theorem C5_theorem (outcome : video_processing_service.HttpOutcome) :
    video_processing_service.trigger_video_processing true outcome = true ↔
      (outcome = .response 200 ∨ outcome = .response 201 ∨ outcome = .response 202) := by
  cases outcome with
  | response c =>
    simp [video_processing_service.trigger_video_processing, or_assoc]
  | timeoutExc => simp [video_processing_service.trigger_video_processing]
  | requestError => simp [video_processing_service.trigger_video_processing]
  | otherExc => simp [video_processing_service.trigger_video_processing]

/-- C6: when the Object Storage Gateway reports unavailable while resolving
the object key, the whole upload-complete operation fails as a 503-class
condition and the database is unchanged — no partial state is persisted. -/
theorem C6_theorem (s3Configured clientErr : Bool) (presignedUrl : String)
    (vid uid : Nat) (key : String) (dispatched : Bool) (now : Nat) (db : Db)
    (hg : s3_service.generate_presigned_download_url s3Configured clientErr presignedUrl = none) :
    videos_api.mark_video_uploaded vid key uid
        (s3_service.generate_presigned_download_url s3Configured clientErr presignedUrl)
        dispatched now db =
      { response := .error (.serviceUnavailable "Failed to generate video URL")
        db := db
        warned := false } := by
  rw [hg]
  rfl

/-- C6 witness: storage unconfigured, one stored pending video: the handler
answers 503 and the row is untouched. -/
theorem C6_witness :
    videos_api.mark_video_uploaded 1 "videos/abc.mp4" 7
        (s3_service.generate_presigned_download_url false false "u") true 5 [vPending] =
      { response := .error (.serviceUnavailable "Failed to generate video URL")
        db := [vPending]
        warned := false } :=
  C6_theorem false false "u" 1 7 "videos/abc.mp4" true 5 [vPending] rfl


/-- When the reported status is neither `completed` nor `failed`,
`update_processing_status` mutates nothing: it answers `invalidStatus` (row
present) or `notFound` (row absent), with the database unchanged. -/
theorem update_processing_status_invalid (vid : Nat) {st : String}
    (pu : Option String) (aq : Option (List (String × String)))
    (er : Option String) (du : Option Int) (now : Nat) (db : Db)
    (hc : st ≠ VideoProcessingStatus.COMPLETED.value)
    (hf : st ≠ VideoProcessingStatus.FAILED.value) :
    video_service.update_processing_status vid st pu aq er du now db =
      (.invalidStatus, db) ∨
    video_service.update_processing_status vid st pu aq er du now db =
      (.notFound, db) := by
  have hcs : (st == VideoProcessingStatus.COMPLETED.value) = false := by
    simpa using hc
  have hfs : (st == VideoProcessingStatus.FAILED.value) = false := by
    simpa using hf
  unfold video_service.update_processing_status
  rcases hg : video_service.get_video vid db with _ | w
  · right
    rfl
  · left
    simp [hcs, hfs]

/-- C7: a webhook whose payload video_id differs from the path video_id, or
whose reported status is neither `completed` nor `failed`, is rejected with a
client-error-class (4xx) response and does not mutate the database. -/
theorem C7_theorem (vid : Nat) (w : VideoProcessingWebhookReq) (now : Nat) (db : Db) :
    (w.video_id ≠ vid →
      videos_api.video_processing_webhook vid w now db =
        (.error (.badRequest "Video ID mismatch between URL and payload"), db)) ∧
    (w.status ≠ VideoProcessingStatus.COMPLETED.value →
      w.status ≠ VideoProcessingStatus.FAILED.value →
      (videos_api.video_processing_webhook vid w now db).2 = db ∧
      ∃ e, (videos_api.video_processing_webhook vid w now db).1 = .error e ∧
        e.isClientError = true) := by
  constructor
  · intro hne
    have hb : (w.video_id != vid) = true := by simpa using hne
    unfold videos_api.video_processing_webhook
    rw [if_pos hb]
  · intro hc hf
    by_cases hm : (w.video_id != vid) = true
    · unfold videos_api.video_processing_webhook
      rw [if_pos hm]
      exact ⟨rfl, ⟨_, rfl, rfl⟩⟩
    · unfold videos_api.video_processing_webhook
      rw [if_neg hm]
      rcases update_processing_status_invalid vid w.processed_video_url
          w.available_qualities w.error w.duration now db hc hf with h | h <;> rw [h]
      · exact ⟨rfl, ⟨_, rfl, rfl⟩⟩
      · exact ⟨rfl, ⟨_, rfl, rfl⟩⟩

/-- C7 witness: a mismatched payload id and an unrecognized status value at
concrete inputs, each rejected with a 4xx and no state change. -/
theorem C7_witness :
    (videos_api.video_processing_webhook 2 wCompleted 5 [vPending] =
      (.error (.badRequest "Video ID mismatch between URL and payload"), [vPending])) ∧
    ((videos_api.video_processing_webhook 1 wBadStatus 5 [vPending]).2 = [vPending] ∧
      ∃ e, (videos_api.video_processing_webhook 1 wBadStatus 5 [vPending]).1 = .error e ∧
        e.isClientError = true) :=
  ⟨(C7_theorem 2 wCompleted 5 [vPending]).1 (by decide),
   (C7_theorem 1 wBadStatus 5 [vPending]).2 (by decide) (by decide)⟩

/-- C8: for an authenticated caller who does not own the video — which
includes the case that no such video exists at all — upload-complete, update
and delete each return the one fixed not-found result of the nonexistent case
and leave the database unchanged, so a non-owner cannot tell whether the
video exists. -/
theorem C8_theorem (vid uid : Nat) (key url : String) (dispatched : Bool)
    (d : VideoUpdateReq) (now : Nat) (db : Db)
    (h : ∀ v ∈ db, v.id = vid → v.user_id ≠ uid) :
    videos_api.mark_video_uploaded vid key uid (some url) dispatched now db =
      { response := .error (.notFound "Video not found or you don't have permission to update it")
        db := db
        warned := false } ∧
    videos_api.update_video vid d uid now db =
      (.error (.notFound "Video not found or you don't have permission to update it"), db) ∧
    videos_api.delete_video vid uid db =
      { response := .error (.notFound "Video not found or you don't have permission to delete it")
        db := db
        s3KeysDeleted := [] } := by
  have hnone : video_service.get_video_by_user vid uid db = none := by
    unfold video_service.get_video_by_user
    rw [List.find?_eq_none]
    intro v hvdb
    simp only [Bool.and_eq_true, beq_iff_eq]
    rintro ⟨h1, h2⟩
    exact h v hvdb h1 h2
  refine ⟨?_, ?_, ?_⟩
  · simp [videos_api.mark_video_uploaded, video_service.update_raw_video, hnone]
  · simp [videos_api.update_video, video_service.update_video, hnone]
  · simp [videos_api.delete_video, video_service.delete_video, hnone]

/-- C8 witness: user 9 calling the three mutating operations on video 1 owned
by user 7 gets exactly the not-found responses of the nonexistent case. -/
theorem C8_witness :
    videos_api.mark_video_uploaded 1 "k" 9 (some "u") true 5 [vPending] =
      { response := .error (.notFound "Video not found or you don't have permission to update it")
        db := [vPending]
        warned := false } ∧
    videos_api.update_video 1 {} 9 5 [vPending] =
      (.error (.notFound "Video not found or you don't have permission to update it"), [vPending]) ∧
    videos_api.delete_video 1 9 [vPending] =
      { response := .error (.notFound "Video not found or you don't have permission to delete it")
        db := [vPending]
        s3KeysDeleted := [] } :=
  C8_theorem 1 9 "k" "u" true {} 5 [vPending] (by
    intro v hv hid
    rw [List.mem_singleton] at hv
    subst hv
    decide)

/-- C9: the mutating operations — metadata update, processed-URL update, the
raw-upload persist and the webhook status update — all set `updated_at` to
the operation time, while `increment_views` increases `views` by exactly one
and leaves `updated_at` (and every other field) unchanged. -/
theorem C9_theorem (vid uid : Nat) (d : VideoUpdateReq) (vurl vkey url key : String)
    (st : String) (pu : Option String) (aq : Option (List (String × String)))
    (er : Option String) (du : Option Int) (now : Nat) (db : Db) (v : Video) :
    (∀ v' db', video_service.update_video vid uid d now db = (some v', db') →
      v'.updated_at = some now) ∧
    (∀ v' db', video_service.update_video_url vid uid vurl vkey now db = (some v', db') →
      v'.updated_at = some now) ∧
    (∀ v' db', video_service.update_raw_video vid uid url key now db = (some v', db') →
      v'.updated_at = some now) ∧
    (∀ v' db', video_service.update_processing_status vid st pu aq er du now db =
        (.ok v', db') → v'.updated_at = some now) ∧
    (video_service.get_video vid db = some v →
      video_service.increment_views vid db =
        (some { v with views := v.views + 1 }, dbPut { v with views := v.views + 1 } db) ∧
      ({ v with views := v.views + 1 }).updated_at = v.updated_at) := by
  refine ⟨?_, ?_, ?_, ?_, ?_⟩
  · intro v' db' h
    unfold video_service.update_video at h
    rcases hg : video_service.get_video_by_user vid uid db with _ | w
    · rw [hg] at h
      simp at h
    · simp only [hg, Prod.mk.injEq, Option.some.injEq] at h
      obtain ⟨rfl, h2⟩ := h
      rfl
  · intro v' db' h
    unfold video_service.update_video_url at h
    rcases hg : video_service.get_video_by_user vid uid db with _ | w
    · rw [hg] at h
      simp at h
    · simp only [hg, Prod.mk.injEq, Option.some.injEq] at h
      obtain ⟨rfl, h2⟩ := h
      rfl
  · intro v' db' h
    unfold video_service.update_raw_video at h
    rcases hg : video_service.get_video_by_user vid uid db with _ | w
    · rw [hg] at h
      simp at h
    · simp only [hg, Prod.mk.injEq, Option.some.injEq] at h
      obtain ⟨rfl, h2⟩ := h
      rfl
  · intro v' db' h
    unfold video_service.update_processing_status at h
    rcases hg : video_service.get_video vid db with _ | w
    · rw [hg] at h
      simp at h
    · simp only [hg] at h
      by_cases hcs : (st == VideoProcessingStatus.COMPLETED.value) = true
      · rw [if_pos hcs] at h
        simp only [Prod.mk.injEq, video_service.ProcUpdateResult.ok.injEq] at h
        obtain ⟨rfl, h2⟩ := h
        rfl
      · rw [if_neg hcs] at h
        by_cases hfs : (st == VideoProcessingStatus.FAILED.value) = true
        · rw [if_pos hfs] at h
          simp only [Prod.mk.injEq, video_service.ProcUpdateResult.ok.injEq] at h
          obtain ⟨rfl, h2⟩ := h
          rfl
        · rw [if_neg hfs] at h
          simp at h
  · intro hg
    constructor
    · unfold video_service.increment_views
      rw [hg]
    · rfl

/-- C9 witness: the four mutators at concrete inputs stamp `updated_at := 5`,
and a concrete view increment bumps `views` without touching `updated_at`. -/
theorem C9_witness :
    vT5.updated_at = some 5 ∧
    vUrlT5.updated_at = some 5 ∧
    (rawUpdate "u" "k" 5 vPending).updated_at = some 5 ∧
    (completedUpdate wCompleted 5 vPending).updated_at = some 5 ∧
    (video_service.increment_views 1 [vPending] =
        (some { vPending with views := vPending.views + 1 },
          dbPut { vPending with views := vPending.views + 1 } [vPending]) ∧
      ({ vPending with views := vPending.views + 1 }).updated_at = vPending.updated_at) := by
  have h := C9_theorem 1 7 {} "vu" "vk" "u" "k" "completed" (some "https://cdn/x.m3u8")
      none none (some 120) 5 [vPending] vPending
  exact ⟨h.1 vT5 (dbPut vT5 [vPending]) rfl,
    h.2.1 vUrlT5 (dbPut vUrlT5 [vPending]) rfl,
    h.2.2.1 (rawUpdate "u" "k" 5 vPending) (dbPut (rawUpdate "u" "k" 5 vPending) [vPending]) rfl,
    h.2.2.2.1 (completedUpdate wCompleted 5 vPending)
      (dbPut (completedUpdate wCompleted 5 vPending) [vPending]) rfl,
    h.2.2.2.2 rfl⟩

/-- C10: on owner delete, the only object key submitted to the storage delete
operation is the record's deprecated `video_key`, and only when it is
non-null; `raw_video_key` is never passed, so whenever it differs from
`video_key` the raw object's key is not among the keys deleted. -/
theorem C10_theorem (vid uid : Nat) (db : Db) (v : Video)
    (hv : video_service.get_video_by_user vid uid db = some v) :
    (videos_api.delete_video vid uid db).s3KeysDeleted = v.video_key.toList ∧
    (∀ k, v.raw_video_key = some k → v.video_key ≠ some k →
      k ∉ (videos_api.delete_video vid uid db).s3KeysDeleted) := by
  have hk : (videos_api.delete_video vid uid db).s3KeysDeleted = v.video_key.toList := by
    simp only [videos_api.delete_video, video_service.delete_video, hv]
    cases v.video_key <;> simp
  refine ⟨hk, ?_⟩
  intro k hraw hne
  rw [hk]
  rcases hvk : v.video_key with _ | a
  · simp
  · rw [hvk] at hne
    simp only [Option.toList_some, List.mem_singleton]
    intro hk2
    exact hne (by rw [hk2])

/-- C10 witness: deleting a video whose `video_key` is `proc.m3u8` and whose
`raw_video_key` is `raw.mp4` submits only `proc.m3u8` to storage delete. -/
theorem C10_witness :
    (videos_api.delete_video 1 7 [vKeys]).s3KeysDeleted = vKeys.video_key.toList ∧
    "raw.mp4" ∉ (videos_api.delete_video 1 7 [vKeys]).s3KeysDeleted := by
  have h := C10_theorem 1 7 [vKeys] vKeys rfl
  exact ⟨h.1, h.2 "raw.mp4" rfl (by decide)⟩

end YtbApi
